import Mathlib

/-!
Verification model of the request-validation / conversion / persistence
pipeline of the dog-walking REST backend (models/*.rs, services/*.rs,
app_errors/errors.rs).  Rust structs become Lean structures, fallible
Rust functions return `Except`, a Rust panic (`expect`) is modelled by
the `crash` constructor of `ROutcome`, and every persistence-gateway
function is given the outcome the backing store would report as an
explicit parameter while returning the list of store operations it
actually issued.
-/

set_option maxHeartbeats 1000000
set_option maxRecDepth 4000

/-! ## Identifier codec: `mongodb::bson::oid::ObjectId`

An ObjectId is 12 bytes.  `parse_str` accepts exactly 24 hexadecimal
characters (either case); `to_hex` renders 24 lowercase hex digits. -/

/-- A MongoDB ObjectId: 12 bytes. -/
abbrev ObjectId : Type := List Nat

/-- Well-formed ObjectId: 12 bytes, each < 256. -/
def ObjectId.WF (o : ObjectId) : Prop := o.length = 12 ∧ ∀ b ∈ o, b < 256

instance (o : ObjectId) : Decidable o.WF := by unfold ObjectId.WF; infer_instance

/-- Value of a hex digit character, `none` if not a hex digit
(`bson` accepts both lowercase and uppercase). -/
def hexVal (c : Char) : Option Nat :=
  if 48 ≤ c.toNat ∧ c.toNat ≤ 57 then some (c.toNat - 48)
  else if 97 ≤ c.toNat ∧ c.toNat ≤ 102 then some (c.toNat - 87)
  else if 65 ≤ c.toNat ∧ c.toNat ≤ 70 then some (c.toNat - 55)
  else none

/-- Errors of `bson::oid::Error` raised by `ObjectId::parse_str`. -/
inductive OidError where
  | invalidHexStringLength (length : Nat)
  | invalidHexStringCharacter (c : Char) (index : Nat)
deriving DecidableEq, Repr

/-- Display rendering of `bson::oid::Error` (used when the services
interpolate the decode error into an `AppError` message). -/
def oidErrMsg : OidError → String
  | .invalidHexStringLength n => "invalid hex string length " ++ Nat.repr n
  | .invalidHexStringCharacter c i =>
      "invalid character " ++ String.mk [c] ++ " at index " ++ Nat.repr i

/-- Decode consecutive hex-digit pairs into bytes. -/
def hexPairs : List Char → Nat → Except OidError (List Nat)
  | [], _ => .ok []
  | [c], i => .error (.invalidHexStringCharacter c i)
  | c1 :: c2 :: rest, i =>
    match hexVal c1 with
    | none => .error (.invalidHexStringCharacter c1 i)
    | some h1 =>
      match hexVal c2 with
      | none => .error (.invalidHexStringCharacter c2 (i + 1))
      | some h2 => do
          let tl ← hexPairs rest (i + 2)
          .ok ((h1 * 16 + h2) :: tl)

/-- `ObjectId::parse_str`: 24 hex characters or failure. -/
def ObjectId.parse (s : String) : Except OidError ObjectId :=
  if s.length = 24 then hexPairs s.data 0
  else .error (.invalidHexStringLength s.length)

/-- Lowercase hex digit character for a value < 16. -/
def hexDigitChar (n : Nat) : Char :=
  if n < 10 then Char.ofNat (48 + n) else Char.ofNat (87 + n)

/-- `ObjectId::to_hex`: 24 lowercase hex characters. -/
def ObjectId.toHex (o : ObjectId) : String :=
  String.mk (o.flatMap fun b => [hexDigitChar (b / 16), hexDigitChar (b % 16)])

/-- A 24-character lowercase-hex string (the response shape of an id). -/
def wellFormedHex (s : String) : Prop :=
  s.length = 24 ∧ ∀ c ∈ s.data,
    ('0' ≤ c ∧ c ≤ '9') ∨ ('a' ≤ c ∧ c ≤ 'f')

instance (s : String) : Decidable (wellFormedHex s) := by
  unfold wellFormedHex; infer_instance

/-! ## chrono / RFC3339 model

`chrono::DateTime::parse_from_rfc3339` is modelled as a character-level
parser producing the instant as nanoseconds since the Unix epoch (the
parsed fixed offset is already applied, which is what
`.with_timezone(&Utc)` preserves).  `bson::DateTime` is modelled as its
payload, milliseconds since the epoch; the composite
`chrono -> SystemTime -> bson::DateTime::from` truncates sub-millisecond
precision toward zero.  `to_chrono().to_rfc3339()` is modelled by
`toRfc3339OfMillis`. -/

/-- The error kinds of `chrono::format::ParseError`. -/
inductive ChronoError where
  | outOfRange
  | impossible
  | notEnough
  | invalid
  | tooShort
  | tooLong
  | badFormat
deriving DecidableEq, Repr

/-- The `Display` messages of `chrono::format::ParseError`. -/
def ChronoError.msg : ChronoError → String
  | .outOfRange => "input is out of range"
  | .impossible => "no possible date and time matching input"
  | .notEnough => "input is not enough for unique date and time"
  | .invalid => "input contains invalid characters"
  | .tooShort => "premature end of input"
  | .tooLong => "trailing input"
  | .badFormat => "bad or unsupported format string"

/-- Proleptic-Gregorian leap year. -/
def isLeap (y : Nat) : Bool := y % 4 = 0 && (y % 100 ≠ 0 || y % 400 = 0)

/-- Days in a month of the proleptic Gregorian calendar. -/
def daysInMonth (y m : Nat) : Nat :=
  if m = 2 then (if isLeap y then 29 else 28)
  else if m = 4 ∨ m = 6 ∨ m = 9 ∨ m = 11 then 30 else 31

/-- Days since 1970-01-01 of a civil date (Gregorian), the standard
era-based computation used by the date libraries. -/
def daysFromCivil (y m d : Int) : Int :=
  let y' := if m ≤ 2 then y - 1 else y
  let era := y' / 400
  let yoe := y' - era * 400
  let mp := if 2 < m then m - 3 else m + 9
  let doy := (153 * mp + 2) / 5 + d - 1
  let doe := yoe * 365 + yoe / 4 - yoe / 100 + doy
  era * 146097 + doe - 719468

/-- Days from the start of a 400-year era up to year-of-era `y`. -/
def ydaysE (y : Nat) : Nat := 365 * y + y / 4 - y / 100 + y / 400

/-- Year of era from day of era: a bounded search around `doe / 366`. -/
def yoeOfDoe (doe : Nat) : Nat :=
  if ydaysE (doe / 366 + 2) ≤ doe then doe / 366 + 2
  else if ydaysE (doe / 366 + 1) ≤ doe then doe / 366 + 1
  else doe / 366

/-- Inverse of `daysFromCivil` (year, month, day from days since
1970-01-01), correct from 0000-01-01 on: the day count is shifted by
one extra era so the era arithmetic stays in `Nat`. -/
def civilFromDays (z : Int) : Nat × Nat × Nat :=
  let n := (z + 865565).toNat
  let era := n / 146097
  let doe := n % 146097
  let yoe := yoeOfDoe doe
  let doy := doe - ydaysE yoe
  let mp := (5 * doy + 2) / 153
  let d := doy - (153 * mp + 2) / 5 + 1
  let m := if mp < 10 then mp + 3 else mp - 9
  let y := era * 400 + yoe + (if 10 ≤ mp then 1 else 0) - 400
  (y, m, d)

/-- Numeric value of a decimal digit character. -/
def dval (c : Char) : Nat := c.toNat - 48

def isDigitChar (c : Char) : Bool := '0' ≤ c && c ≤ '9'

/-- The character of a decimal digit. -/
def digitChar (n : Nat) : Char := Char.ofNat (48 + n)

def pad2 (n : Nat) : List Char := [digitChar (n / 10 % 10), digitChar (n % 10)]

def pad3 (n : Nat) : List Char :=
  [digitChar (n / 100 % 10), digitChar (n / 10 % 10), digitChar (n % 10)]

def pad4 (n : Nat) : List Char :=
  [digitChar (n / 1000 % 10), digitChar (n / 100 % 10),
   digitChar (n / 10 % 10), digitChar (n % 10)]

/-- Read one decimal digit (end of input is a premature end, any other
character is invalid, as in chrono's scanner). -/
def readDigit : List Char → Except ChronoError (Nat × List Char)
  | [] => .error .tooShort
  | c :: rest => if isDigitChar c then .ok (dval c, rest) else .error .invalid

def read2 (cs : List Char) : Except ChronoError (Nat × List Char) :=
  match readDigit cs with
  | .error e => .error e
  | .ok (a, cs) =>
    match readDigit cs with
    | .error e => .error e
    | .ok (b, cs) => .ok (a * 10 + b, cs)

def read4 (cs : List Char) : Except ChronoError (Nat × List Char) :=
  match read2 cs with
  | .error e => .error e
  | .ok (a, cs) =>
    match read2 cs with
    | .error e => .error e
    | .ok (b, cs) => .ok (a * 100 + b, cs)

/-- Expect a literal character. -/
def expectCh (c : Char) : List Char → Except ChronoError (List Char)
  | [] => .error .tooShort
  | x :: rest => if x = c then .ok rest else .error .invalid

/-- Consume a maximal run of digits. -/
def takeDigits : List Char → List Nat × List Char
  | [] => ([], [])
  | c :: rest =>
    if isDigitChar c then
      let (ds, rem) := takeDigits rest
      (dval c :: ds, rem)
    else ([], c :: rest)

/-- Nanoseconds from the digits following the decimal point: the first
nine digits are significant, the rest are consumed and ignored. -/
def nanosOfDigits (ds : List Nat) : Nat :=
  (((ds.take 9).foldl (fun acc d => acc * 10 + d) 0)) * 10 ^ (9 - (ds.take 9).length)

/-- Parse the RFC3339 offset: `Z`/`z` or `±HH:MM`, as minutes. -/
def readOffset : List Char → Except ChronoError (Int × List Char)
  | [] => .error .tooShort
  | c :: rest =>
    if c = 'Z' ∨ c = 'z' then .ok (0, rest)
    else if c = '+' ∨ c = '-' then
      match read2 rest with
      | .error e => .error e
      | .ok (hh, cs) =>
        match expectCh ':' cs with
        | .error e => .error e
        | .ok cs =>
          match read2 cs with
          | .error e => .error e
          | .ok (mm, cs) =>
            if hh ≤ 23 ∧ mm ≤ 59 then
              .ok ((if c = '+' then (hh * 60 + mm : Int) else -(hh * 60 + mm : Int)), cs)
            else .error .outOfRange
    else .error .invalid

/-- The date-time separator: `T`, `t` or a space. -/
def readSep : List Char → Except ChronoError (List Char)
  | [] => .error .tooShort
  | c :: rest =>
    if c = 'T' ∨ c = 't' ∨ c = ' ' then .ok rest else .error .invalid

/-- The optional fractional-second part. -/
def readFrac : List Char → Except ChronoError (Nat × List Char)
  | '.' :: rest =>
    (match rest with
     | [] => .error .tooShort
     | c :: _ =>
       if isDigitChar c then
         (match takeDigits rest with
          | (ds, rem) => .ok (nanosOfDigits ds, rem))
       else .error .invalid)
  | other => .ok (0, other)

/-- The final range validation and instant computation. -/
def finishParse (y mo d h mi sec nanos : Nat) (off : Int) :
    List Char → Except ChronoError Int
  | _ :: _ => .error .tooLong
  | [] =>
    if 1 ≤ mo ∧ mo ≤ 12 ∧ 1 ≤ d ∧ d ≤ daysInMonth y mo ∧
       h ≤ 23 ∧ mi ≤ 59 ∧ sec ≤ 60 then
      .ok ((daysFromCivil (y : Int) (mo : Int) (d : Int) * 86400
              + h * 3600 + mi * 60 + sec) * 1000000000
            + nanos - off * 60000000000)
    else .error .outOfRange

/-- `chrono::DateTime::parse_from_rfc3339` followed by
`.with_timezone(&Utc)`: the instant in nanoseconds since the epoch.
A second of 60 is accepted (leap second) and behaves as 59 s plus an
extra second, exactly as chrono's representation does once converted
to `SystemTime`. -/
def parseRfc3339 (s : String) : Except ChronoError Int :=
  match read4 s.data with
  | .error e => .error e
  | .ok (y, cs) =>
  match expectCh '-' cs with
  | .error e => .error e
  | .ok cs =>
  match read2 cs with
  | .error e => .error e
  | .ok (mo, cs) =>
  match expectCh '-' cs with
  | .error e => .error e
  | .ok cs =>
  match read2 cs with
  | .error e => .error e
  | .ok (d, cs) =>
  match readSep cs with
  | .error e => .error e
  | .ok cs =>
  match read2 cs with
  | .error e => .error e
  | .ok (h, cs) =>
  match expectCh ':' cs with
  | .error e => .error e
  | .ok cs =>
  match read2 cs with
  | .error e => .error e
  | .ok (mi, cs) =>
  match expectCh ':' cs with
  | .error e => .error e
  | .ok cs =>
  match read2 cs with
  | .error e => .error e
  | .ok (sec, cs) =>
  match readFrac cs with
  | .error e => .error e
  | .ok (nanos, cs) =>
  match readOffset cs with
  | .error e => .error e
  | .ok (off, cs) => finishParse y mo d h mi sec nanos off cs

/-- The composite `chrono -> SystemTime -> bson::DateTime`:
milliseconds since the epoch, sub-millisecond part dropped toward zero
(`Duration::as_millis` on the absolute distance from the epoch). -/
def msTrunc (n : Int) : Int := Int.tdiv n 1000000

/-- chrono `to_rfc3339` fraction: absent when zero, else 3 digits here
(the stored value has millisecond precision). -/
def fracRender (ms : Nat) : List Char := if ms = 0 then [] else '.' :: pad3 ms

/-- chrono renders years 0..=9999 as 4 digits, larger years with an
explicit sign. -/
def yearRender (y : Nat) : List Char :=
  if y ≤ 9999 then pad4 y else '+' :: (Nat.repr y).data

/-- `bson::DateTime::to_chrono().to_rfc3339()`: render the stored
milliseconds as an RFC3339 string in UTC. -/
def toRfc3339OfMillis (m : Int) : String :=
  let secs := m / 1000
  let ms := (m % 1000).toNat
  let z := secs / 86400
  let sod := (secs % 86400).toNat
  let c := civilFromDays z
  let h := sod / 3600
  let mi := sod % 3600 / 60
  let s := sod % 60
  String.mk (yearRender c.1 ++ '-' :: pad2 c.2.1 ++ '-' :: pad2 c.2.2
    ++ 'T' :: pad2 h ++ ':' :: pad2 mi ++ ':' :: pad2 s
    ++ fracRender ms ++ ['+', '0', '0', ':', '0', '0'])

/-! ## Error taxonomy (`app_errors/errors.rs`) -/

/-- The application error enum `AppError`. -/
inductive AppError where
  | DatabaseError (msg : String)
  | InvalidId
  | NotFound
  | ParseError (msg : String)
  | InternalError
deriving DecidableEq, Repr

/-- The `Display` impl of `AppError`. -/
def AppError.display : AppError → String
  | .DatabaseError m => "Database error: " ++ m
  | .InvalidId => "Invalid ID format"
  | .NotFound => "Item not found"
  | .ParseError m => "Parse error: " ++ m
  | .InternalError => "Internal server error"

/-! ## Data model (`models/*.rs`)

Each resource keeps the source's three shapes: the persisted entity
(`ObjectId` ids, bson `DateTime` as epoch milliseconds), the create
request (plain strings) and the response (ids and dates as strings),
plus the all-optional update request.  `ROutcome` distinguishes a
normal return from a Rust run-time abort (`expect`). -/

/-- A Rust computation that either returns or aborts the thread
(models `expect` on an `Err`). -/
inductive ROutcome (α : Type) where
  | crash (msg : String)
  | ret (v : α)
deriving DecidableEq, Repr

structure Owner where
  _id : ObjectId
  name : String
  email : String
  phone : String
  address : String
deriving DecidableEq, Repr

structure OwnerRequest where
  name : String
  email : String
  phone : String
  address : String
deriving DecidableEq, Repr

structure OwnerResponse where
  _id : String
  name : String
  email : String
  phone : String
  address : String
deriving DecidableEq, Repr

structure OwnerUpdateRequest where
  name : Option String
  email : Option String
  phone : Option String
  address : Option String
deriving DecidableEq, Repr

/-- `TryFrom<OwnerRequest> for Owner`: generates an id and copies
every field; no validation is performed. -/
def Owner.tryFrom (freshId : ObjectId) (item : OwnerRequest) : Except String Owner :=
  .ok { _id := freshId, name := item.name, email := item.email,
        phone := item.phone, address := item.address }

/-- `From<Owner> for OwnerResponse`. -/
def Owner.toResponse (owner : Owner) : OwnerResponse :=
  { _id := owner._id.toHex, name := owner.name, email := owner.email,
    phone := owner.phone, address := owner.address }

/-- Modelled from the validator derive attributes on `OwnerRequest`
(`length(min = 1)` on name, `email`, `length(min = 7)` on phone,
`length(min = 5)` on address); the email shape is simplified to
"exactly one at-sign with nonempty local part and a domain holding a
dot".  The route handlers never invoke this validation. -/
def emailShaped (s : String) : Bool :=
  match s.data.splitOn '@' with
  | [local_, domain] => !local_.isEmpty && !domain.isEmpty && domain.contains '.'
  | _ => false

def OwnerRequest.fieldsValid (r : OwnerRequest) : Bool :=
  decide (1 ≤ r.name.length) && emailShaped r.email &&
    decide (7 ≤ r.phone.length) && decide (5 ≤ r.address.length)

structure Sitter where
  _id : ObjectId
  firstname : String
  lastname : String
  gender : String
  email : String
  phone : String
  address : String
deriving DecidableEq, Repr

structure SitterRequest where
  firstname : String
  lastname : String
  gender : String
  email : String
  phone : String
  address : String
deriving DecidableEq, Repr

structure SitterResponse where
  _id : String
  firstname : String
  lastname : String
  gender : String
  email : String
  phone : String
  address : String
deriving DecidableEq, Repr

structure SitterUpdateRequest where
  firstname : Option String
  lastname : Option String
  gender : Option String
  email : Option String
  phone : Option String
  address : Option String
deriving DecidableEq, Repr

/-- `TryFrom<SitterRequest> for Sitter`. -/
def Sitter.tryFrom (freshId : ObjectId) (request : SitterRequest) : Except String Sitter :=
  .ok { _id := freshId, firstname := request.firstname, lastname := request.lastname,
        gender := request.gender, email := request.email,
        phone := request.phone, address := request.address }

/-- `From<Sitter> for SitterResponse`. -/
def Sitter.toResponse (sitter : Sitter) : SitterResponse :=
  { _id := sitter._id.toHex, firstname := sitter.firstname,
    lastname := sitter.lastname, gender := sitter.gender,
    email := sitter.email, phone := sitter.phone, address := sitter.address }

structure Dog where
  _id : ObjectId
  owner : ObjectId
  name : String
  age : Option Nat
  breed : Option String
deriving DecidableEq, Repr

structure DogRequest where
  owner : String
  name : String
  age : Option Nat
  breed : Option String
deriving DecidableEq, Repr

structure DogResponse where
  _id : String
  owner : String
  name : String
  age : Option Nat
  breed : Option String
deriving DecidableEq, Repr

structure DogUpdateRequest where
  owner : Option String
  name : Option String
  age : Option Nat
  breed : Option String
deriving DecidableEq, Repr

/-- `TryFrom<DogRequest> for Dog`: `ObjectId::parse_str(&item.owner)`
is followed by `.expect("Failed to parse owner.")`, so an invalid
owner string aborts instead of returning an error. -/
def Dog.tryFrom (freshId : ObjectId) (item : DogRequest) : ROutcome (Except String Dog) :=
  match ObjectId.parse item.owner with
  | .error _ => .crash "Failed to parse owner."
  | .ok ow => .ret (.ok { _id := freshId, owner := ow, name := item.name,
                          age := item.age, breed := item.breed })

/-- `From<Dog> for DogResponse`. -/
def Dog.toResponse (dog : Dog) : DogResponse :=
  { _id := dog._id.toHex, owner := dog.owner.toHex, name := dog.name,
    age := dog.age, breed := dog.breed }

structure Booking where
  _id : ObjectId
  owner : ObjectId
  start_time : Int
  duration_minutes : Nat
  cancelled : Bool
deriving DecidableEq, Repr

structure BookingRequest where
  owner : String
  start_time : String
  duration_minutes : Nat
deriving DecidableEq, Repr

structure BookingResponse where
  _id : String
  owner : String
  start_time : String
  duration_minutes : Nat
  cancelled : Bool
deriving DecidableEq, Repr

structure BookingUpdateRequest where
  owner : Option String
  start_time : Option String
  duration_minutes : Option Nat
  cancelled : Option Bool
deriving DecidableEq, Repr

/-- `TryFrom<BookingRequest> for Booking`: `start_time` is parsed
first and a parse failure is returned as an error (via `?` with
`format!("Failed to parse start time: {} ", err)` — note the trailing
space); then the owner string is parsed with
`.expect("Failed to parse owner!")`, so an invalid owner aborts;
`cancelled` is set to `false` unconditionally. -/
def Booking.tryFrom (freshId : ObjectId) (booking_request : BookingRequest) :
    ROutcome (Except String Booking) :=
  match parseRfc3339 booking_request.start_time with
  | .error err => .ret (.error ("Failed to parse start time: " ++ err.msg ++ " "))
  | .ok inst =>
    match ObjectId.parse booking_request.owner with
    | .error _ => .crash "Failed to parse owner!"
    | .ok ow => .ret (.ok { _id := freshId, owner := ow, start_time := msTrunc inst,
                            duration_minutes := booking_request.duration_minutes,
                            cancelled := false })

/-- `From<Booking> for BookingResponse`. -/
def Booking.toResponse (booking : Booking) : BookingResponse :=
  { _id := booking._id.toHex, owner := booking.owner.toHex,
    start_time := toRfc3339OfMillis booking.start_time,
    duration_minutes := booking.duration_minutes, cancelled := booking.cancelled }

/-! ## Bson documents and store outcomes -/

/-- The bson values this pipeline stores in update documents and
receives as `inserted_id`. -/
inductive BVal where
  | oid (o : ObjectId)
  | str (s : String)
  | nat32 (n : Nat)
  | dt (millis : Int)
  | boolean (b : Bool)
deriving DecidableEq, Repr

/-- A `Document` under construction (`doc!{}` plus `insert` calls). -/
abbrev BDoc := List (String × BVal)

/-- Rough model of Rust's `Debug` rendering of a `Bson` value (only
interpolated into failure messages). -/
def BVal.debugStr : BVal → String
  | .oid o => "ObjectId(\x22" ++ o.toHex ++ "\x22)"
  | .str s => "String(\x22" ++ s ++ "\x22)"
  | .nat32 n => "Int32(" ++ Nat.repr n ++ ")"
  | .dt m => "DateTime(" ++ (if m < 0 then "-" ++ Nat.repr m.natAbs else Nat.repr m.natAbs) ++ ")"
  | .boolean b => if b then "Boolean(true)" else "Boolean(false)"

/-- The store operations a gateway function can issue. -/
inductive DbOp where
  | insertOne
  | findOne
  | updateOne
  | deleteOne
deriving DecidableEq, Repr

/-- `mongodb::results::InsertOneResult`. -/
structure InsertOneResult where
  insertedId : BVal
deriving DecidableEq, Repr

/-- `mongodb::results::UpdateResult` (the fields the source could have
inspected but does not). -/
structure UpdateResult where
  matchedCount : Nat
  modifiedCount : Nat
deriving DecidableEq, Repr

/-- `mongodb::results::DeleteResult` (`deleted_count: u64`). -/
structure DeleteResult where
  deletedCount : Nat
deriving DecidableEq, Repr

/-- The outcome the backing store would report for each kind of
operation, were it reached (`String` is the store error's rendering). -/
structure DbEnv (ε : Type) where
  insertOutcome : Except String InsertOneResult
  findOneOutcome : Except String (Option ε)
  updateOutcome : Except String UpdateResult
  deleteOutcome : Except String DeleteResult

/-- Substring test on character lists. -/
def listStartsWith : List Char → List Char → Bool
  | _, [] => true
  | [], _ :: _ => false
  | a :: as, b :: bs => a = b && listStartsWith as bs

def listHasSub : List Char → List Char → Bool
  | [], needle => needle.isEmpty
  | a :: t, needle => listStartsWith (a :: t) needle || listHasSub t needle

/-- Rust `str::contains` on rendered strings. -/
def hasSub (hay needle : String) : Bool := listHasSub hay.data needle.data

/-! ## Persistence gateway (`services/owners.rs`, `services/dogs.rs`,
`services/bookings.rs`, `services/sitters.rs`)

Each function takes the outcome the store would report as part of the
environment and returns its Rust result together with the list of
store operations it issued, in order.  The inline field-selection
blocks of the update functions are factored into `build*Update`
selectors (they are executed before the store is touched, exactly as
in the straight-line source). -/

/-- `create_owner`. -/
def createOwner (env : DbEnv Owner) (owner : Owner) :
    Except AppError Owner × List DbOp :=
  match env.insertOutcome with
  | .error e => (.error (.DatabaseError e), [.insertOne])
  | .ok result =>
    match result.insertedId with
    | .oid _ => (.ok owner, [.insertOne])
    | other => (.error (.DatabaseError ("Failed to Create new Owner: " ++ other.debugStr)),
                [.insertOne])

/-- `read_owner`. -/
def readOwner (env : DbEnv Owner) (owner_id : String) :
    Except AppError Owner × List DbOp :=
  match ObjectId.parse owner_id with
  | .error _ => (.error .InvalidId, [])
  | .ok _ =>
    match env.findOneOutcome with
    | .error e => (.error (.DatabaseError e), [.findOne])
    | .ok (some owner) => (.ok owner, [.findOne])
    | .ok none => (.error .NotFound, [.findOne])

/-- The field-selection block of `update_owner`. -/
def buildOwnerUpdate (owner_update : OwnerUpdateRequest) : Except AppError BDoc :=
  let fields : BDoc := []
  let fields := match owner_update.name with
    | some v => fields ++ [("name", BVal.str v)] | none => fields
  let fields := match owner_update.email with
    | some v => fields ++ [("email", BVal.str v)] | none => fields
  let fields := match owner_update.phone with
    | some v => fields ++ [("phone", BVal.str v)] | none => fields
  let fields := match owner_update.address with
    | some v => fields ++ [("address", BVal.str v)] | none => fields
  if fields.isEmpty then .error (.ParseError "No Fields provided to Updated")
  else .ok fields

/-- `update_owner`. -/
def updateOwner (env : DbEnv Owner) (owner_id : String)
    (owner_update : OwnerUpdateRequest) : Except AppError String × List DbOp :=
  match ObjectId.parse owner_id with
  | .error _ => (.error .InvalidId, [])
  | .ok oid =>
    match buildOwnerUpdate owner_update with
    | .error e => (.error e, [])
    | .ok _fields =>
      match env.updateOutcome with
      | .ok _result => (.ok oid.toHex, [.updateOne])
      | .error e => (.error (.DatabaseError ("Failed to Update Owner: " ++ e)), [.updateOne])

/-- `delete_owner`. -/
def deleteOwner (env : DbEnv Owner) (owner_id : String) :
    Except AppError String × List DbOp :=
  match ObjectId.parse owner_id with
  | .error _ => (.error .InvalidId, [])
  | .ok oid =>
    match env.deleteOutcome with
    | .ok delete_result =>
      if 1 ≤ delete_result.deletedCount then (.ok oid.toHex, [.deleteOne])
      else if delete_result.deletedCount = 0 then (.error .NotFound, [.deleteOne])
      else (.error .InternalError, [.deleteOne])
    | .error db_error =>
      (.error (.DatabaseError ("Failed to Delete Owner: " ++ db_error)), [.deleteOne])

/-- `create_dog`. -/
def createDog (env : DbEnv Dog) (dog : Dog) : Except AppError Dog × List DbOp :=
  match env.insertOutcome with
  | .error e => (.error (.DatabaseError e), [.insertOne])
  | .ok result =>
    match result.insertedId with
    | .oid _ => (.ok dog, [.insertOne])
    | other => (.error (.DatabaseError ("Failed to Create new Dog: " ++ other.debugStr)),
                [.insertOne])

/-- `read_dog`. -/
def readDog (env : DbEnv Dog) (dog_id : String) : Except AppError Dog × List DbOp :=
  match ObjectId.parse dog_id with
  | .error _ => (.error .InvalidId, [])
  | .ok _ =>
    match env.findOneOutcome with
    | .error e => (.error (.DatabaseError e), [.findOne])
    | .ok (some dog) => (.ok dog, [.findOne])
    | .ok none => (.error .NotFound, [.findOne])

/-- The field-selection block of `update_dog`: a supplied owner string
must decode, else the whole update fails with `DatabaseError` carrying
the decode error. -/
def buildDogUpdate (dog_update : DogUpdateRequest) : Except AppError BDoc := do
  let fields : BDoc := []
  let fields ← (match dog_update.owner with
    | none => Except.ok fields
    | some owner =>
      match ObjectId.parse owner with
      | .error e =>
        Except.error (.DatabaseError ("Update Failed: invalid owner ID: " ++ oidErrMsg e))
      | .ok received_owner => Except.ok (fields ++ [("owner", BVal.oid received_owner)]))
  let fields := match dog_update.name with
    | some v => fields ++ [("name", BVal.str v)] | none => fields
  let fields := match dog_update.age with
    | some v => fields ++ [("age", BVal.nat32 v)] | none => fields
  let fields := match dog_update.breed with
    | some v => fields ++ [("breed", BVal.str v)] | none => fields
  if fields.isEmpty then .error (.ParseError "No Fields provided to Updated")
  else .ok fields

/-- `update_dog`. -/
def updateDog (env : DbEnv Dog) (dog_id : String)
    (dog_update : DogUpdateRequest) : Except AppError String × List DbOp :=
  match ObjectId.parse dog_id with
  | .error _ => (.error .InvalidId, [])
  | .ok oid =>
    match buildDogUpdate dog_update with
    | .error e => (.error e, [])
    | .ok _fields =>
      match env.updateOutcome with
      | .ok _result => (.ok oid.toHex, [.updateOne])
      | .error e => (.error (.DatabaseError ("Failed to Update Dog: " ++ e)), [.updateOne])

/-- `delete_dog`. -/
def deleteDog (env : DbEnv Dog) (dog_id : String) :
    Except AppError String × List DbOp :=
  match ObjectId.parse dog_id with
  | .error _ => (.error .InvalidId, [])
  | .ok oid =>
    match env.deleteOutcome with
    | .ok delete_result =>
      if 1 ≤ delete_result.deletedCount then (.ok oid.toHex, [.deleteOne])
      else if delete_result.deletedCount = 0 then (.error .NotFound, [.deleteOne])
      else (.error .InternalError, [.deleteOne])
    | .error db_error =>
      (.error (.DatabaseError ("Failed to Delete Dog: " ++ db_error)), [.deleteOne])

/-- `create_booking`. -/
def createBooking (env : DbEnv Booking) (booking : Booking) :
    Except AppError Booking × List DbOp :=
  match env.insertOutcome with
  | .error e => (.error (.DatabaseError e), [.insertOne])
  | .ok result =>
    match result.insertedId with
    | .oid _ => (.ok booking, [.insertOne])
    | other => (.error (.DatabaseError ("Failed to Create new Booking: " ++ other.debugStr)),
                [.insertOne])

/-- `read_booking`. -/
def readBooking (env : DbEnv Booking) (booking_id : String) :
    Except AppError Booking × List DbOp :=
  match ObjectId.parse booking_id with
  | .error _ => (.error .InvalidId, [])
  | .ok _ =>
    match env.findOneOutcome with
    | .error e => (.error (.DatabaseError e), [.findOne])
    | .ok (some booking) => (.ok booking, [.findOne])
    | .ok none => (.error .NotFound, [.findOne])

/-- The field-selection block of `update_booking`: a supplied owner
must decode (else `DatabaseError` with the decode error); a supplied
`start_time` must parse as RFC3339, where an underlying chrono message
containing "expected date" is reported as
`ParseError "Start time must include a date"` and any other parse
failure as `ParseError "Failed to parse start time: _"`. -/
def buildBookingUpdate (booking_update : BookingUpdateRequest) : Except AppError BDoc := do
  let fields : BDoc := []
  let fields ← (match booking_update.owner with
    | none => Except.ok fields
    | some owner_str =>
      match ObjectId.parse owner_str with
      | .error e =>
        Except.error (.DatabaseError ("Update Failed: invalid owner ID: " ++ oidErrMsg e))
      | .ok received_owner => Except.ok (fields ++ [("owner", BVal.oid received_owner)]))
  let fields ← (match booking_update.start_time with
    | none => Except.ok fields
    | some start_time =>
      match parseRfc3339 start_time with
      | .ok inst => Except.ok (fields ++ [("start_time", BVal.dt (msTrunc inst))])
      | .error err =>
        if hasSub err.msg "expected date" then
          Except.error (.ParseError "Start time must include a date")
        else
          Except.error (.ParseError ("Failed to parse start time: " ++ err.msg)))
  let fields := match booking_update.duration_minutes with
    | some v => fields ++ [("duration_minutes", BVal.nat32 v)] | none => fields
  let fields := match booking_update.cancelled with
    | some v => fields ++ [("cancelled", BVal.boolean v)] | none => fields
  if fields.isEmpty then .error (.ParseError "No Fields provided to Updated")
  else .ok fields

/-- `update_booking`. -/
def updateBooking (env : DbEnv Booking) (booking_id : String)
    (booking_update : BookingUpdateRequest) : Except AppError String × List DbOp :=
  match ObjectId.parse booking_id with
  | .error _ => (.error .InvalidId, [])
  | .ok oid =>
    match buildBookingUpdate booking_update with
    | .error e => (.error e, [])
    | .ok _fields =>
      match env.updateOutcome with
      | .ok _result => (.ok oid.toHex, [.updateOne])
      | .error e => (.error (.DatabaseError ("Failed to Update Booking: " ++ e)), [.updateOne])

/-- `delete_booking`. -/
def deleteBooking (env : DbEnv Booking) (booking_id : String) :
    Except AppError String × List DbOp :=
  match ObjectId.parse booking_id with
  | .error _ => (.error .InvalidId, [])
  | .ok oid =>
    match env.deleteOutcome with
    | .ok delete_result =>
      if 1 ≤ delete_result.deletedCount then (.ok oid.toHex, [.deleteOne])
      else if delete_result.deletedCount = 0 then (.error .NotFound, [.deleteOne])
      else (.error .InternalError, [.deleteOne])
    | .error db_error =>
      (.error (.DatabaseError ("Failed to Delete Booking: " ++ db_error)), [.deleteOne])

/-- `create_sitter`. -/
def createSitter (env : DbEnv Sitter) (sitter : Sitter) :
    Except AppError Sitter × List DbOp :=
  match env.insertOutcome with
  | .error e => (.error (.DatabaseError e), [.insertOne])
  | .ok result =>
    match result.insertedId with
    | .oid _ => (.ok sitter, [.insertOne])
    | other => (.error (.DatabaseError ("Failed to Create new Owner: " ++ other.debugStr)),
                [.insertOne])

/-- `read_sitter`. -/
def readSitter (env : DbEnv Sitter) (sitter_id : String) :
    Except AppError Sitter × List DbOp :=
  match ObjectId.parse sitter_id with
  | .error _ => (.error .InvalidId, [])
  | .ok _ =>
    match env.findOneOutcome with
    | .error e => (.error (.DatabaseError e), [.findOne])
    | .ok (some sitter) => (.ok sitter, [.findOne])
    | .ok none => (.error .NotFound, [.findOne])

/-- The field-selection block of `update_sitter`. -/
def buildSitterUpdate (sitter_update : SitterUpdateRequest) : Except AppError BDoc :=
  let fields : BDoc := []
  let fields := match sitter_update.firstname with
    | some v => fields ++ [("firstname", BVal.str v)] | none => fields
  let fields := match sitter_update.lastname with
    | some v => fields ++ [("lastname", BVal.str v)] | none => fields
  let fields := match sitter_update.gender with
    | some v => fields ++ [("gender", BVal.str v)] | none => fields
  let fields := match sitter_update.email with
    | some v => fields ++ [("email", BVal.str v)] | none => fields
  let fields := match sitter_update.phone with
    | some v => fields ++ [("phone", BVal.str v)] | none => fields
  let fields := match sitter_update.address with
    | some v => fields ++ [("address", BVal.str v)] | none => fields
  if fields.isEmpty then .error (.ParseError "No Fields provided to Updated")
  else .ok fields

/-- `update_sitter`. -/
def updateSitter (env : DbEnv Sitter) (sitter_id : String)
    (sitter_update : SitterUpdateRequest) : Except AppError String × List DbOp :=
  match ObjectId.parse sitter_id with
  | .error _ => (.error .InvalidId, [])
  | .ok oid =>
    match buildSitterUpdate sitter_update with
    | .error e => (.error e, [])
    | .ok _fields =>
      match env.updateOutcome with
      | .ok _result => (.ok oid.toHex, [.updateOne])
      | .error e => (.error (.DatabaseError ("Failed to Update Sitter: " ++ e)), [.updateOne])

/-- `delete_sitter`. -/
def deleteSitter (env : DbEnv Sitter) (sitter_id : String) :
    Except AppError String × List DbOp :=
  match ObjectId.parse sitter_id with
  | .error _ => (.error .InvalidId, [])
  | .ok oid =>
    match env.deleteOutcome with
    | .ok delete_result =>
      if 1 ≤ delete_result.deletedCount then (.ok oid.toHex, [.deleteOne])
      else if delete_result.deletedCount = 0 then (.error .NotFound, [.deleteOne])
      else (.error .InternalError, [.deleteOne])
    | .error db_error =>
      (.error (.DatabaseError ("Failed to Delete Sitter: " ++ db_error)), [.deleteOne])

/-- The create-owner route handler (`routes/owner_routes.rs`) after a
successfully deserialized JSON body: convert via `Owner::try_from`
(no field validation happens anywhere on this path) and insert. -/
def createOwnerRoute (env : DbEnv Owner) (freshId : ObjectId) (owner_req : OwnerRequest) :
    Except String OwnerResponse × List DbOp :=
  match Owner.tryFrom freshId owner_req with
  | .error _ => (.error "Invalid Owner: Error converting OwnerRequest to Owner.", [])
  | .ok validated_owner =>
    match createOwner env validated_owner with
    | (.ok inserted_owner, ops) => (.ok inserted_owner.toResponse, ops)
    | (.error e, ops) => (.error e.display, ops)

/-- A sample store environment for concrete instantiations: inserts
acknowledge an ObjectId, finds miss, updates match nothing, deletes
remove one document. -/
def sampleEnv (eps : Type) : DbEnv eps :=
  { insertOutcome := .ok { insertedId := .oid (List.replicate 12 7) },
    findOneOutcome := .ok none,
    updateOutcome := .ok { matchedCount := 0, modifiedCount := 0 },
    deleteOutcome := .ok { deletedCount := 1 } }

/-! ## Calendar correctness -/

theorem yoeOfDoe_spec (doe : Nat) (h : doe ≤ 146096) :
    ydaysE (yoeOfDoe doe) ≤ doe ∧ doe < ydaysE (yoeOfDoe doe + 1) ∧
      yoeOfDoe doe ≤ 399 := by
  unfold yoeOfDoe ydaysE
  split
  · omega
  · split
    · omega
    · omega

theorem monthOfDoy_spec (doy mp d m : Nat) (h : doy ≤ 365)
    (hmp : mp = (5 * doy + 2) / 153)
    (hd : d = doy - (153 * mp + 2) / 5 + 1)
    (hm : m = if mp < 10 then mp + 3 else mp - 9) :
    1 ≤ m ∧ m ≤ 12 ∧ 1 ≤ d ∧
      (153 * mp + 2) / 5 + d - 1 = doy ∧ (153 * mp + 2) / 5 ≤ doy ∧
      ((10 ≤ mp) ↔ m ≤ 2) ∧ (m = 2 ↔ mp = 11) ∧
      (m = 2 → d ≤ 28 ∨ (d = 29 ∧ doy = 365)) ∧
      (m ≠ 2 → d ≤ daysInMonth 1 m) := by
  have hmpb : mp ≤ 11 := by omega
  subst hm
  interval_cases mp <;> norm_num [daysInMonth, isLeap] <;> omega

theorem daysInMonth_ne_two (y y' m : Nat) (hm : m ≠ 2) :
    daysInMonth y m = daysInMonth y' m := by
  simp [daysInMonth, hm]


theorem civilFromDays_correct (z : Int) (n era doe yoe doy mp d m y adj : Nat)
    (hz1 : -719528 ≤ z) (hz2 : z ≤ 2932896)
    (hn : (n : Int) = z + 865565)
    (hera : era = n / 146097) (hdoe : doe = n % 146097)
    (hyoe : yoe = yoeOfDoe doe) (hdoy : doy = doe - ydaysE yoe)
    (hmp : mp = (5 * doy + 2) / 153) (hd : d = doy - (153 * mp + 2) / 5 + 1)
    (hm : m = if mp < 10 then mp + 3 else mp - 9)
    (hadj : adj = if 10 ≤ mp then 1 else 0)
    (hy : y = era * 400 + yoe + adj - 400) :
    civilFromDays z = (y, m, d) ∧
      daysFromCivil (y : Int) (m : Int) (d : Int) = z ∧
      1 ≤ m ∧ m ≤ 12 ∧ 1 ≤ d ∧ d ≤ daysInMonth y m ∧ y ≤ 9999 := by
  have hdoe96 : doe ≤ 146096 := by omega
  have hys := yoeOfDoe_spec doe hdoe96
  rw [← hyoe] at hys
  obtain ⟨hys1, hys2, hys3⟩ := hys
  -- the pieces civilFromDays computes are precisely the given components
  have hcv : civilFromDays z = (y, m, d) := by
    have htn : (z + 865565).toNat = n := by omega
    rw [hadj] at hy
    simp only [civilFromDays, htn, ← hera, ← hdoe, ← hyoe, ← hdoy, ← hmp, ← hd,
      ← hm, ← hy]
  simp only [ydaysE] at hys1 hys2 hdoy
  have hdoy365 : doy ≤ 365 := by clear * - hys1 hys2 hys3 hdoy; omega
  have hms := monthOfDoy_spec doy mp d m hdoy365 hmp hd hm
  obtain ⟨hm1, hm12, hd1, hrec, hle, hiff, hfeb, hfebd, hnfeb⟩ := hms
  have hmc : (m = mp + 3 ∧ mp < 10) ∨ (m = mp - 9 ∧ 10 ≤ mp) := by
    rcases Nat.lt_or_ge mp 10 with h | h
    · exact .inl ⟨by rw [hm, if_pos h], h⟩
    · exact .inr ⟨by rw [hm, if_neg (by omega)], h⟩
  have hac : (adj = 0 ∧ mp < 10) ∨ (adj = 1 ∧ 10 ≤ mp) := by
    rcases Nat.lt_or_ge mp 10 with h | h
    · exact .inl ⟨by rw [hadj, if_neg (by omega)], h⟩
    · exact .inr ⟨by rw [hadj, if_pos h], h⟩
  clear hm hadj
  have hnlo : 146037 ≤ n := by omega
  have hnhi : n ≤ 3798461 := by omega
  have hnsplit : n = era * 146097 + doe := by omega
  have hsplit : doe = 365 * yoe + yoe / 4 - yoe / 100 + yoe / 400 + doy := by
    clear * - hys1 hdoy; omega
  have hera25 : era ≤ 25 := by omega
  -- the one-era shift keeps the shifted year at 400 or above
  have h400 : 400 ≤ era * 400 + yoe + adj := by
    rcases Nat.eq_zero_or_pos era with h0 | h1
    · have hdoe0 : doe = n := by clear * - hera hdoe h0; omega
      have hyoe399 : yoe = 399 := by clear * - hys3 hys2 hdoe0 hnlo; omega
      have hdoy306 : 306 ≤ doy := by clear * - hsplit hyoe399 hdoe0 hnlo; omega
      have : 10 ≤ mp := by clear * - hmp hdoy306; omega
      omega
    · omega
  -- year bound
  have hy9999 : y ≤ 9999 := by
    rcases Nat.lt_or_ge era 25 with h0 | h1
    · rcases hac with ⟨ha, _⟩ | ⟨ha, _⟩ <;> omega
    · have hera' : era = 25 := by omega
      rcases Nat.lt_or_ge yoe 399 with h2 | h3
      · rcases hac with ⟨ha, _⟩ | ⟨ha, _⟩ <;> omega
      · have hyoe399 : yoe = 399 := by omega
        have hdoel : doe ≤ 146036 := by clear * - hnsplit hnhi hera'; omega
        have hdoyl : doy ≤ 305 := by clear * - hsplit hyoe399 hdoel; omega
        have hmp9 : mp ≤ 9 := by clear * - hmp hdoyl; omega
        rcases hac with ⟨ha, _⟩ | ⟨_, hc⟩
        · omega
        · omega
  refine ⟨hcv, ?_, hm1, hm12, hd1, ?_, hy9999⟩
  · -- daysFromCivil recomposes z
    simp only [daysFromCivil]
    rcases le_or_lt m 2 with hm2 | hm2
    · have hadj1 : adj = 1 ∧ 10 ≤ mp := by
        rcases hac with ⟨h1, h2⟩ | h
        · exact absurd (hiff.mpr hm2) (by omega)
        · exact h
      rw [if_pos (by exact_mod_cast hm2), if_neg (by omega : ¬ (2 : Int) < (m : Nat))]
      have hyInt : (y : Int) = (era : Int) * 400 + yoe + 1 - 400 := by
        clear * - hy hadj1 h400; omega
      have hmmp : m + 9 = mp := by
        rcases hmc with ⟨h1, h2⟩ | ⟨h1, h2⟩
        · omega
        · omega
      clear * - hn hnsplit hsplit hys3 hrec hd1 hmmp hyInt
      omega
    · have hadj0 : adj = 0 ∧ mp < 10 := by
        rcases hac with h | ⟨h1, h2⟩
        · exact h
        · exact absurd (hiff.mp h2) (by omega)
      rw [if_neg (by exact_mod_cast Nat.not_le.mpr hm2 : ¬ (m : Int) ≤ 2),
        if_pos (by exact_mod_cast hm2)]
      have hyInt : (y : Int) = (era : Int) * 400 + yoe - 400 := by
        clear * - hy hadj0 h400; omega
      have hmmp : m = mp + 3 := by
        rcases hmc with ⟨h1, h2⟩ | ⟨h1, h2⟩
        · omega
        · omega
      clear * - hn hnsplit hsplit hys3 hrec hd1 hmmp hyInt
      omega
  · -- day is within the month, leap years included
    by_cases hm2 : m = 2
    · subst hm2
      have hdm : daysInMonth y 2 = if isLeap y then 29 else 28 := by
        norm_num [daysInMonth]
      rcases hfebd rfl with h28 | ⟨h29, h365⟩
      · rw [hdm]; split <;> omega
      · have hmp11 : mp = 11 := hfeb.mp rfl
        have hadj1 : adj = 1 := by rcases hac with ⟨_, h⟩ | ⟨h1, _⟩ <;> omega
        have hinc : 365 * yoe + yoe / 4 - yoe / 100 + yoe / 400 + 366 ≤
            365 * (yoe + 1) + (yoe + 1) / 4 - (yoe + 1) / 100 + (yoe + 1) / 400 := by
          clear * - hsplit hys2 h365; omega
        have hmod : (yoe + 1) % 4 = 0 ∧
            ((yoe + 1) % 100 ≠ 0 ∨ (yoe + 1) % 400 = 0) := by
          clear * - hinc hys3; omega
        have hy400 : y + 400 = era * 400 + yoe + 1 := by
          clear * - hy hadj1 h400; omega
        have hleap : y % 4 = 0 ∧ (y % 100 ≠ 0 ∨ y % 400 = 0) := by
          clear * - hmod hy400; omega
        have hbool : isLeap y = true := by
          simp only [isLeap, Bool.and_eq_true, Bool.or_eq_true, decide_eq_true_eq,
            ne_eq]
          tauto
        rw [hdm, if_pos hbool]
        omega
    · rw [daysInMonth_ne_two y 1 m hm2]
      exact hnfeb hm2

/-! ## Print/parse round-trip for the RFC3339 renderer -/

theorem digitChar_spec (a : Nat) (h : a ≤ 9) :
    isDigitChar (digitChar a) = true ∧ dval (digitChar a) = a := by
  interval_cases a <;> exact ⟨by decide, by decide⟩

theorem readDigit_digitChar (a : Nat) (h : a ≤ 9) (rest : List Char) :
    readDigit (digitChar a :: rest) = .ok (a, rest) := by
  obtain ⟨h1, h2⟩ := digitChar_spec a h
  simp [readDigit, h1, h2]

theorem read2_pad2 (n : Nat) (h : n ≤ 99) (rest : List Char) :
    read2 (pad2 n ++ rest) = .ok (n, rest) := by
  have e : n / 10 % 10 * 10 + n % 10 = n := by omega
  simp only [pad2, List.cons_append, List.nil_append, read2,
    readDigit_digitChar _ (by omega : n / 10 % 10 ≤ 9),
    readDigit_digitChar _ (by omega : n % 10 ≤ 9), e]

theorem read4_pad4 (n : Nat) (h : n ≤ 9999) (rest : List Char) :
    read4 (pad4 n ++ rest) = .ok (n, rest) := by
  have e : (n / 1000 % 10 * 10 + n / 100 % 10) * 100 +
      (n / 10 % 10 * 10 + n % 10) = n := by omega
  simp only [pad4, List.cons_append, List.nil_append, read4, read2,
    readDigit_digitChar _ (by omega : n / 1000 % 10 ≤ 9),
    readDigit_digitChar _ (by omega : n / 100 % 10 ≤ 9),
    readDigit_digitChar _ (by omega : n / 10 % 10 ≤ 9),
    readDigit_digitChar _ (by omega : n % 10 ≤ 9), e]

theorem expectCh_self (c : Char) (rest : List Char) :
    expectCh c (c :: rest) = .ok rest := by
  simp [expectCh]

theorem readSep_T (rest : List Char) : readSep ('T' :: rest) = .ok rest := by
  simp [readSep]

theorem takeDigits_digit (c : Char) (l : List Char) (h : isDigitChar c = true) :
    takeDigits (c :: l) = (dval c :: (takeDigits l).1, (takeDigits l).2) := by
  simp [takeDigits, h]

theorem takeDigits_stop (c : Char) (l : List Char) (h : isDigitChar c = false) :
    takeDigits (c :: l) = ([], c :: l) := by
  simp [takeDigits, h]

theorem readFrac_render (ms : Nat) (h : ms ≤ 999) (tc : Char) (ttl : List Char)
    (ht1 : isDigitChar tc = false) (ht3 : tc ≠ '.') :
    readFrac (fracRender ms ++ tc :: ttl) = .ok (ms * 1000000, tc :: ttl) := by
  by_cases h0 : ms = 0
  · subst h0
    have hfr : fracRender 0 = [] := by simp [fracRender]
    rw [hfr, List.nil_append]
    unfold readFrac
    split
    · rename_i heq
      rw [List.cons.injEq] at heq
      exact absurd heq.1 ht3
    · rfl
  · have e1 : isDigitChar (digitChar (ms / 100 % 10)) = true :=
      (digitChar_spec _ (by omega)).1
    have e2 : isDigitChar (digitChar (ms / 10 % 10)) = true :=
      (digitChar_spec _ (by omega)).1
    have e3 : isDigitChar (digitChar (ms % 10)) = true :=
      (digitChar_spec _ (by omega)).1
    have v1 : dval (digitChar (ms / 100 % 10)) = ms / 100 % 10 :=
      (digitChar_spec _ (by omega)).2
    have v2 : dval (digitChar (ms / 10 % 10)) = ms / 10 % 10 :=
      (digitChar_spec _ (by omega)).2
    have v3 : dval (digitChar (ms % 10)) = ms % 10 :=
      (digitChar_spec _ (by omega)).2
    simp only [fracRender, if_neg h0, pad3, List.cons_append, List.nil_append,
      readFrac, e1, if_true,
      takeDigits_digit _ _ e1, takeDigits_digit _ _ e2, takeDigits_digit _ _ e3,
      takeDigits_stop _ _ ht1, v1, v2, v3]
    simp only [nanosOfDigits, List.take, List.foldl, List.length,
      List.length_nil]
    rw [Except.ok.injEq, Prod.mk.injEq]
    refine ⟨?_, rfl⟩
    have e : (((0 * 10 + ms / 100 % 10) * 10 + ms / 10 % 10) * 10 + ms % 10) = ms := by
      omega
    rw [e]
    norm_num

theorem strMkData (l : List Char) : (String.mk l).data = l := rfl

theorem readOffset_utc : readOffset ['+', '0', '0', ':', '0', '0'] = .ok (0, []) := rfl

theorem parseRfc3339_toRfc3339 (msec : Int)
    (h1 : -62167219200000 ≤ msec) (h2 : msec ≤ 253402300799999) :
    parseRfc3339 (toRfc3339OfMillis msec) = .ok (msec * 1000000) := by
  have hz1 : -719528 ≤ msec / 1000 / 86400 := by omega
  have hz2 : msec / 1000 / 86400 ≤ 2932896 := by omega
  have hn : (((msec / 1000 / 86400) + 865565).toNat : Int) =
      msec / 1000 / 86400 + 865565 := by omega
  have key : ∃ y mo d, civilFromDays (msec / 1000 / 86400) = (y, mo, d) ∧
      daysFromCivil (y : Int) (mo : Int) (d : Int) = msec / 1000 / 86400 ∧
      1 ≤ mo ∧ mo ≤ 12 ∧ 1 ≤ d ∧ d ≤ daysInMonth y mo ∧ y ≤ 9999 := by
    obtain ⟨a, b⟩ := civilFromDays_correct (msec / 1000 / 86400) _ _ _ _ _ _ _ _ _ _
      hz1 hz2 hn rfl rfl rfl rfl rfl rfl rfl rfl rfl
    exact ⟨_, _, _, a, b⟩
  obtain ⟨y, mo, d, hcv, hrecomp, hm1, hm12, hd1, hdim, hy9999⟩ := key
  have hsod : (msec / 1000 % 86400).toNat ≤ 86399 := by omega
  have hms999 : (msec % 1000).toNat ≤ 999 := by omega
  have hrender : toRfc3339OfMillis msec = String.mk (
      pad4 y ++ '-' :: pad2 mo ++ '-' :: pad2 d
      ++ 'T' :: pad2 ((msec / 1000 % 86400).toNat / 3600)
      ++ ':' :: pad2 ((msec / 1000 % 86400).toNat % 3600 / 60)
      ++ ':' :: pad2 ((msec / 1000 % 86400).toNat % 60)
      ++ fracRender ((msec % 1000).toNat) ++ ['+', '0', '0', ':', '0', '0']) := by
    simp only [toRfc3339OfMillis, hcv, yearRender, if_pos hy9999]
  rw [hrender]
  have hdles : d ≤ 31 := by
    have : daysInMonth y mo ≤ 31 := by
      unfold daysInMonth
      split
      · split <;> omega
      · split <;> omega
    omega
  have hcond : 1 ≤ mo ∧ mo ≤ 12 ∧ 1 ≤ d ∧ d ≤ daysInMonth y mo ∧
      (msec / 1000 % 86400).toNat / 3600 ≤ 23 ∧
      (msec / 1000 % 86400).toNat % 3600 / 60 ≤ 59 ∧
      (msec / 1000 % 86400).toNat % 60 ≤ 60 :=
    ⟨hm1, hm12, hd1, hdim, by omega, by omega, by omega⟩
  simp only [parseRfc3339, strMkData, List.append_assoc, List.cons_append,
    read4_pad4 y (by omega),
    expectCh_self, readSep_T,
    read2_pad2 mo (by omega), read2_pad2 d (by omega),
    read2_pad2 ((msec / 1000 % 86400).toNat / 3600) (by omega),
    read2_pad2 ((msec / 1000 % 86400).toNat % 3600 / 60) (by omega),
    read2_pad2 ((msec / 1000 % 86400).toNat % 60) (by omega),
    readFrac_render ((msec % 1000).toNat) hms999 '+' ['0', '0', ':', '0', '0']
      (by decide) (by decide),
    readOffset_utc, finishParse, if_pos hcond]
  rw [hrecomp, Except.ok.injEq]
  omega

/-! ## Identifier codec correctness -/

theorem hexVal_lt (c : Char) (v : Nat) (h : hexVal c = some v) : v < 16 := by
  unfold hexVal at h
  split at h
  · rw [Option.some.injEq] at h; omega
  · split at h
    · rw [Option.some.injEq] at h; omega
    · split at h
      · rw [Option.some.injEq] at h; omega
      · exact absurd h (by simp)

theorem hexPairs_wf (l : List Char) (i : Nat) (bs : List Nat)
    (h : hexPairs l i = .ok bs) : 2 * bs.length = l.length ∧ ∀ b ∈ bs, b < 256 := by
  induction l, i using hexPairs.induct generalizing bs with
  | case1 i =>
    unfold hexPairs at h
    rw [Except.ok.injEq] at h
    subst h
    simp
  | case2 c i =>
    unfold hexPairs at h
    exact absurd h (by simp)
  | case3 c1 c2 rest i hv1 =>
    unfold hexPairs at h
    rw [hv1] at h
    exact absurd h (by simp)
  | case4 c1 c2 rest i v1 hv1 hv2 =>
    unfold hexPairs at h
    rw [hv1, hv2] at h
    exact absurd h (by simp)
  | case5 c1 c2 rest i v1 hv1 v2 hv2 ih =>
    unfold hexPairs at h
    rw [hv1, hv2] at h
    simp only [bind, Except.bind] at h
    rcases htl : hexPairs rest (i + 2) with e | tl <;> rw [htl] at h
    · exact absurd h (by simp)
    rw [Except.ok.injEq] at h
    subst h
    obtain ⟨hl, hb⟩ := ih _ htl
    have b1 := hexVal_lt c1 v1 hv1
    have b2 := hexVal_lt c2 v2 hv2
    constructor
    · simp only [List.length_cons]; omega
    · intro b hmem
      rcases List.mem_cons.mp hmem with hhd | hmem2
      · omega
      · exact hb b hmem2

theorem parse_wf (s : String) (o : ObjectId) (h : ObjectId.parse s = .ok o) :
    o.WF := by
  unfold ObjectId.parse at h
  split at h
  · rename_i hlen
    obtain ⟨hl, hb⟩ := hexPairs_wf s.data 0 o h
    have : s.data.length = 24 := hlen
    exact ⟨by omega, hb⟩
  · exact absurd h (by simp)

theorem hexDigitChar_range (n : Nat) (h : n < 16) :
    ('0' ≤ hexDigitChar n ∧ hexDigitChar n ≤ '9') ∨
      ('a' ≤ hexDigitChar n ∧ hexDigitChar n ≤ 'f') := by
  interval_cases n <;> first | exact .inl (by decide) | exact .inr (by decide)

theorem toHex_wf (o : ObjectId) (h : o.WF) : wellFormedHex o.toHex := by
  obtain ⟨hlen, hb⟩ := h
  constructor
  · show (String.mk _).length = 24
    have : ∀ l : List Nat,
        (l.flatMap fun b => [hexDigitChar (b / 16), hexDigitChar (b % 16)]).length
          = 2 * l.length := by
      intro l
      induction l with
      | nil => simp
      | cons a t ih => simp [ih]; omega
    show (o.flatMap fun b => [hexDigitChar (b / 16), hexDigitChar (b % 16)]).length = 24
    rw [this, hlen]
  · intro c hc
    have hc' : c ∈ o.flatMap fun b => [hexDigitChar (b / 16), hexDigitChar (b % 16)] := hc
    rw [List.mem_flatMap] at hc'
    obtain ⟨b, hbmem, hcin⟩ := hc'
    rcases List.mem_cons.mp hcin with h1 | h2
    · subst h1
      exact hexDigitChar_range _ (by have := hb b hbmem; omega)
    · rcases List.mem_cons.mp h2 with h1 | h3
      · subst h1
        exact hexDigitChar_range _ (by have := hb b hbmem; omega)
      · exact absurd h3 (by simp)

/-! ## Shared facts about the update field selectors -/

/-- No chrono parse-error message contains "expected date", so the
missing-date branch of `update_booking` can never fire. -/
theorem noExpectedDate (e : ChronoError) : hasSub e.msg "expected date" = false := by
  cases e <;> decide

/-- A supplied but undecodable owner makes `buildBookingUpdate` fail
with the `DatabaseError` carrying the decode error. -/
theorem buildBookingUpdate_owner_err (u : BookingUpdateRequest) (s : String)
    (e : OidError) (ho : u.owner = some s) (hp : ObjectId.parse s = .error e) :
    buildBookingUpdate u =
      .error (.DatabaseError ("Update Failed: invalid owner ID: " ++ oidErrMsg e)) := by
  simp only [buildBookingUpdate, ho, hp, bind, Except.bind]

/-- A supplied but undecodable owner makes `buildDogUpdate` fail with
the `DatabaseError` carrying the decode error. -/
theorem buildDogUpdate_owner_err (u : DogUpdateRequest) (s : String)
    (e : OidError) (ho : u.owner = some s) (hp : ObjectId.parse s = .error e) :
    buildDogUpdate u =
      .error (.DatabaseError ("Update Failed: invalid owner ID: " ++ oidErrMsg e)) := by
  simp only [buildDogUpdate, ho, hp, bind, Except.bind]

/-- An absent owner and a malformed `start_time` make
`buildBookingUpdate` fail with the generic parse error (the
missing-date branch never fires, by `noExpectedDate`). -/
theorem buildBookingUpdate_time_err (u : BookingUpdateRequest) (st : String)
    (e : ChronoError) (ho : u.owner = none) (hst : u.start_time = some st)
    (hp : parseRfc3339 st = .error e) :
    buildBookingUpdate u =
      .error (.ParseError ("Failed to parse start time: " ++ e.msg)) := by
  simp only [buildBookingUpdate, ho, hst, hp, bind, Except.bind,
    noExpectedDate e, Bool.false_eq_true, if_false]

/-! ## Claims -/

/-- C1: the specification says the conversions `TryFrom<BookingRequest>
for Booking` and `TryFrom<DogRequest> for Dog` return a conversion
error when the owner string does not decode as an identifier.  The
code instead calls `.expect(...)` on the decode result, so it aborts
(panics) on such input rather than returning an error: evaluating both
conversions at an invalid owner (with a valid `start_time` for the
booking) yields the modelled Rust abort. -/
theorem claim_C1 :
    Booking.tryFrom (List.replicate 12 0)
        { owner := "xyz", start_time := "2025-04-28T12:00:00Z", duration_minutes := 30 }
      = .crash "Failed to parse owner!" ∧
    Dog.tryFrom (List.replicate 12 0)
        { owner := "xyz", name := "Rex", age := none, breed := none }
      = .crash "Failed to parse owner." := by
  exact ⟨rfl, rfl⟩

/-- C3: the specification says a create request with a field failing
validation (malformed email, short phone, empty name) is rejected and
nothing is persisted.  The `#[validate(...)]` rules on `OwnerRequest`
are never invoked on the create path: a request violating all three
rules converts successfully, is inserted (one `insertOne` issued), and
the route returns a success response echoing the invalid fields. -/
theorem claim_C3 :
    OwnerRequest.fieldsValid
      { name := "", email := "not-an-email", phone := "123", address := "1 Main St" }
      = false ∧
    createOwnerRoute (sampleEnv Owner) (List.replicate 12 0)
      { name := "", email := "not-an-email", phone := "123", address := "1 Main St" }
      = (.ok { _id := ObjectId.toHex (List.replicate 12 0), name := "",
               email := "not-an-email", phone := "123", address := "1 Main St" },
         [.insertOne]) := by
  exact ⟨rfl, rfl⟩

/-- C4: for every identifier string that does not decode as a
24-character hex ObjectId, `read_one`, `update` and `delete` of every
resource fail with `InvalidId` and issue no store operation. -/
theorem claim_C4 (s : String) (e : OidError) (h : ObjectId.parse s = .error e) :
    (∀ env : DbEnv Owner, readOwner env s = (.error .InvalidId, []) ∧
      deleteOwner env s = (.error .InvalidId, []) ∧
      ∀ u, updateOwner env s u = (.error .InvalidId, [])) ∧
    (∀ env : DbEnv Dog, readDog env s = (.error .InvalidId, []) ∧
      deleteDog env s = (.error .InvalidId, []) ∧
      ∀ u, updateDog env s u = (.error .InvalidId, [])) ∧
    (∀ env : DbEnv Booking, readBooking env s = (.error .InvalidId, []) ∧
      deleteBooking env s = (.error .InvalidId, []) ∧
      ∀ u, updateBooking env s u = (.error .InvalidId, [])) ∧
    (∀ env : DbEnv Sitter, readSitter env s = (.error .InvalidId, []) ∧
      deleteSitter env s = (.error .InvalidId, []) ∧
      ∀ u, updateSitter env s u = (.error .InvalidId, [])) := by
  refine ⟨fun env => ⟨?_, ?_, fun u => ?_⟩, fun env => ⟨?_, ?_, fun u => ?_⟩,
    fun env => ⟨?_, ?_, fun u => ?_⟩, fun env => ⟨?_, ?_, fun u => ?_⟩⟩ <;>
    simp [readOwner, deleteOwner, updateOwner, readDog, deleteDog, updateDog,
      readBooking, deleteBooking, updateBooking, readSitter, deleteSitter,
      updateSitter, h]

/-- Witness for C4 at the malformed id "xyz". -/
theorem claim_C4_witness :
    ObjectId.parse "xyz" = .error (.invalidHexStringLength 3) ∧
    readOwner (sampleEnv Owner) "xyz" = (.error .InvalidId, []) ∧
    deleteBooking (sampleEnv Booking) "xyz" = (.error .InvalidId, []) ∧
    updateDog (sampleEnv Dog) "xyz"
      { owner := none, name := some "Rex", age := none, breed := none }
      = (.error .InvalidId, []) := by
  have h := claim_C4 "xyz" (.invalidHexStringLength 3) rfl
  exact ⟨rfl, (h.1 _).1, (h.2.2.1 _).2.1, (h.2.1 _).2.2 _⟩

/-- C5: for every resource, once the id decodes and the field selector
accepts the update, any store outcome that is not an error — including
one with zero matched documents — is reported as success carrying the
given id's hex form, with exactly one `updateOne` issued and no
existence check (the store's matched/modified counts are ignored). -/
theorem claim_C5 :
    (∀ (env : DbEnv Owner) s oid u fields res, ObjectId.parse s = .ok oid →
      buildOwnerUpdate u = .ok fields → env.updateOutcome = .ok res →
      updateOwner env s u = (.ok oid.toHex, [.updateOne])) ∧
    (∀ (env : DbEnv Dog) s oid u fields res, ObjectId.parse s = .ok oid →
      buildDogUpdate u = .ok fields → env.updateOutcome = .ok res →
      updateDog env s u = (.ok oid.toHex, [.updateOne])) ∧
    (∀ (env : DbEnv Booking) s oid u fields res, ObjectId.parse s = .ok oid →
      buildBookingUpdate u = .ok fields → env.updateOutcome = .ok res →
      updateBooking env s u = (.ok oid.toHex, [.updateOne])) ∧
    (∀ (env : DbEnv Sitter) s oid u fields res, ObjectId.parse s = .ok oid →
      buildSitterUpdate u = .ok fields → env.updateOutcome = .ok res →
      updateSitter env s u = (.ok oid.toHex, [.updateOne])) := by
  refine ⟨fun env s oid u fields res h1 h2 h3 => ?_,
    fun env s oid u fields res h1 h2 h3 => ?_,
    fun env s oid u fields res h1 h2 h3 => ?_,
    fun env s oid u fields res h1 h2 h3 => ?_⟩ <;>
    simp [updateOwner, updateDog, updateBooking, updateSitter, h1, h2, h3]

/-- Witness for C5: a well-formed id, a one-field update, and a store
outcome matching zero documents still yield success with the id. -/
theorem claim_C5_witness :
    ObjectId.parse "aaaaaaaaaaaaaaaaaaaaaaaa" = .ok (List.replicate 12 170) ∧
    buildOwnerUpdate { name := some "Jane", email := none, phone := none, address := none }
      = .ok [("name", .str "Jane")] ∧
    (sampleEnv Owner).updateOutcome = .ok { matchedCount := 0, modifiedCount := 0 } ∧
    updateOwner (sampleEnv Owner) "aaaaaaaaaaaaaaaaaaaaaaaa"
      { name := some "Jane", email := none, phone := none, address := none }
      = (.ok (ObjectId.toHex (List.replicate 12 170)), [.updateOne]) := by
  refine ⟨rfl, rfl, rfl, ?_⟩
  exact claim_C5.1 (sampleEnv Owner) _ _ _ _ _ rfl rfl rfl

/-- C6: for every resource, delete with a decodable identifier maps the
store outcome faithfully: `NotFound` exactly on zero removed documents,
the hex id on one-or-more, `DatabaseError` on a store error; and since
the modelled removal count (`u64`) has no negative or invalid values,
the defensive `InternalError` arm is unreachable. -/
theorem claim_C6 (s : String) (oid : ObjectId) (h : ObjectId.parse s = .ok oid) :
    (∀ env : DbEnv Owner,
      (∀ dr, env.deleteOutcome = .ok dr → dr.deletedCount = 0 →
        deleteOwner env s = (.error .NotFound, [.deleteOne])) ∧
      (∀ dr, env.deleteOutcome = .ok dr → 1 ≤ dr.deletedCount →
        deleteOwner env s = (.ok oid.toHex, [.deleteOne])) ∧
      (∀ msg, env.deleteOutcome = .error msg →
        deleteOwner env s =
          (.error (.DatabaseError ("Failed to Delete Owner: " ++ msg)), [.deleteOne])) ∧
      (deleteOwner env s).1 ≠ .error .InternalError) ∧
    (∀ env : DbEnv Sitter,
      (∀ dr, env.deleteOutcome = .ok dr → dr.deletedCount = 0 →
        deleteSitter env s = (.error .NotFound, [.deleteOne])) ∧
      (∀ dr, env.deleteOutcome = .ok dr → 1 ≤ dr.deletedCount →
        deleteSitter env s = (.ok oid.toHex, [.deleteOne])) ∧
      (∀ msg, env.deleteOutcome = .error msg →
        deleteSitter env s =
          (.error (.DatabaseError ("Failed to Delete Sitter: " ++ msg)), [.deleteOne])) ∧
      (deleteSitter env s).1 ≠ .error .InternalError) ∧
    (∀ env : DbEnv Dog,
      (∀ dr, env.deleteOutcome = .ok dr → dr.deletedCount = 0 →
        deleteDog env s = (.error .NotFound, [.deleteOne])) ∧
      (∀ dr, env.deleteOutcome = .ok dr → 1 ≤ dr.deletedCount →
        deleteDog env s = (.ok oid.toHex, [.deleteOne])) ∧
      (∀ msg, env.deleteOutcome = .error msg →
        deleteDog env s =
          (.error (.DatabaseError ("Failed to Delete Dog: " ++ msg)), [.deleteOne])) ∧
      (deleteDog env s).1 ≠ .error .InternalError) ∧
    (∀ env : DbEnv Booking,
      (∀ dr, env.deleteOutcome = .ok dr → dr.deletedCount = 0 →
        deleteBooking env s = (.error .NotFound, [.deleteOne])) ∧
      (∀ dr, env.deleteOutcome = .ok dr → 1 ≤ dr.deletedCount →
        deleteBooking env s = (.ok oid.toHex, [.deleteOne])) ∧
      (∀ msg, env.deleteOutcome = .error msg →
        deleteBooking env s =
          (.error (.DatabaseError ("Failed to Delete Booking: " ++ msg)), [.deleteOne])) ∧
      (deleteBooking env s).1 ≠ .error .InternalError) := by
  have step : ∀ (out : Except String DeleteResult) (oidh : String) (pre : String),
      (∀ dr, out = .ok dr → dr.deletedCount = 0 →
        (match out with
         | .ok delete_result =>
           if 1 ≤ delete_result.deletedCount then (Except.ok oidh, [DbOp.deleteOne])
           else if delete_result.deletedCount = 0 then
             (Except.error AppError.NotFound, [DbOp.deleteOne])
           else (Except.error AppError.InternalError, [DbOp.deleteOne])
         | .error db_error =>
           (Except.error (AppError.DatabaseError (pre ++ db_error)), [DbOp.deleteOne]))
          = ((.error .NotFound : Except AppError String), [DbOp.deleteOne])) ∧
      (∀ dr, out = .ok dr → 1 ≤ dr.deletedCount →
        (match out with
         | .ok delete_result =>
           if 1 ≤ delete_result.deletedCount then (Except.ok oidh, [DbOp.deleteOne])
           else if delete_result.deletedCount = 0 then
             (Except.error AppError.NotFound, [DbOp.deleteOne])
           else (Except.error AppError.InternalError, [DbOp.deleteOne])
         | .error db_error =>
           (Except.error (AppError.DatabaseError (pre ++ db_error)), [DbOp.deleteOne]))
          = ((.ok oidh : Except AppError String), [DbOp.deleteOne])) ∧
      (∀ msg, out = .error msg →
        (match out with
         | .ok delete_result =>
           if 1 ≤ delete_result.deletedCount then (Except.ok oidh, [DbOp.deleteOne])
           else if delete_result.deletedCount = 0 then
             (Except.error AppError.NotFound, [DbOp.deleteOne])
           else (Except.error AppError.InternalError, [DbOp.deleteOne])
         | .error db_error =>
           (Except.error (AppError.DatabaseError (pre ++ db_error)), [DbOp.deleteOne]))
          = ((.error (.DatabaseError (pre ++ msg)) : Except AppError String),
             [DbOp.deleteOne])) ∧
      (match out with
       | .ok delete_result =>
         if 1 ≤ delete_result.deletedCount then (Except.ok oidh, [DbOp.deleteOne])
         else if delete_result.deletedCount = 0 then
           (Except.error AppError.NotFound, [DbOp.deleteOne])
         else (Except.error AppError.InternalError, [DbOp.deleteOne])
       | .error db_error =>
         (Except.error (AppError.DatabaseError (pre ++ db_error)),
          [DbOp.deleteOne])).1 ≠ .error .InternalError := by
    intro out oidh pre
    rcases out with msg | dr
    · refine ⟨fun dr h1 h2 => by simp at h1, fun dr h1 h2 => by simp at h1,
        fun m h1 => by simp_all, by simp⟩
    · refine ⟨fun dr2 h1 h2 => ?_, fun dr2 h1 h2 => ?_, fun m h1 => by simp at h1, ?_⟩
      · rw [Except.ok.injEq] at h1
        subst h1
        simp [h2]
      · rw [Except.ok.injEq] at h1
        subst h1
        simp [h2]
      · dsimp only
        split
        · simp
        · split
          · simp
          · omega
  refine ⟨fun env => ?_, fun env => ?_, fun env => ?_, fun env => ?_⟩ <;>
    · simp only [deleteOwner, deleteSitter, deleteDog, deleteBooking, h]
      exact step env.deleteOutcome oid.toHex _

/-- Witness for C6 at a decodable id with a one-document removal. -/
theorem claim_C6_witness :
    ObjectId.parse "aaaaaaaaaaaaaaaaaaaaaaaa" = .ok (List.replicate 12 170) ∧
    (sampleEnv Owner).deleteOutcome = .ok { deletedCount := 1 } ∧
    deleteOwner (sampleEnv Owner) "aaaaaaaaaaaaaaaaaaaaaaaa"
      = (.ok (ObjectId.toHex (List.replicate 12 170)), [.deleteOne]) := by
  refine ⟨rfl, rfl, ?_⟩
  exact ((claim_C6 "aaaaaaaaaaaaaaaaaaaaaaaa" (List.replicate 12 170)
    rfl).1 (sampleEnv Owner)).2.1 _ rfl (by decide)

/-- C7 counterexample: the empty update is rejected, but the
`ParseError` message the code carries is "No Fields provided to
Updated", not the claimed "No fields provided to update". -/
theorem claim_C7_counterexample :
    buildOwnerUpdate { name := none, email := none, phone := none, address := none }
      = .error (.ParseError "No Fields provided to Updated") ∧
    ("No Fields provided to Updated" : String) ≠ "No fields provided to update" := by
  exact ⟨rfl, by decide⟩

/-- C7 (amended): for every resource, an update request with every
optional field absent makes the field selector fail with
`ParseError "No Fields provided to Updated"` (the code's actual
message), and the full update operation issues no store operation,
whatever the id. -/
theorem claim_C7 :
    (∀ u : OwnerUpdateRequest,
      u = { name := none, email := none, phone := none, address := none } →
      buildOwnerUpdate u = .error (.ParseError "No Fields provided to Updated") ∧
      ∀ (env : DbEnv Owner) s, (updateOwner env s u).2 = []) ∧
    (∀ u : DogUpdateRequest,
      u = { owner := none, name := none, age := none, breed := none } →
      buildDogUpdate u = .error (.ParseError "No Fields provided to Updated") ∧
      ∀ (env : DbEnv Dog) s, (updateDog env s u).2 = []) ∧
    (∀ u : BookingUpdateRequest,
      u = { owner := none, start_time := none, duration_minutes := none,
            cancelled := none } →
      buildBookingUpdate u = .error (.ParseError "No Fields provided to Updated") ∧
      ∀ (env : DbEnv Booking) s, (updateBooking env s u).2 = []) ∧
    (∀ u : SitterUpdateRequest,
      u = { firstname := none, lastname := none, gender := none, email := none,
            phone := none, address := none } →
      buildSitterUpdate u = .error (.ParseError "No Fields provided to Updated") ∧
      ∀ (env : DbEnv Sitter) s, (updateSitter env s u).2 = []) := by
  refine ⟨fun u hu => ?_, fun u hu => ?_, fun u hu => ?_, fun u hu => ?_⟩ <;>
    subst hu <;>
    refine ⟨rfl, fun env s => ?_⟩ <;>
    · rcases hp : ObjectId.parse s with e | oid <;>
        simp [updateOwner, updateDog, updateBooking, updateSitter,
          buildOwnerUpdate, buildDogUpdate, buildBookingUpdate, buildSitterUpdate,
          hp, bind, Except.bind]

/-- Witness for C7: the all-absent owner update at a concrete id and
environment. -/
theorem claim_C7_witness :
    buildOwnerUpdate { name := none, email := none, phone := none, address := none }
      = .error (.ParseError "No Fields provided to Updated") ∧
    (updateOwner (sampleEnv Owner) "aaaaaaaaaaaaaaaaaaaaaaaa"
      { name := none, email := none, phone := none, address := none }).2 = [] := by
  have h := claim_C7.1 _ rfl
  exact ⟨h.1, h.2 (sampleEnv Owner) _⟩

/-- C9: a Booking or Dog update whose owner field is present but does
not decode fails with a `DatabaseError` whose message carries the
decode error behind "Update Failed: invalid owner ID: ", and in
particular not with `InvalidId` nor any `ParseError`. -/
theorem claim_C9 (s : String) (e : OidError) (hp : ObjectId.parse s = .error e) :
    (∀ u : BookingUpdateRequest, u.owner = some s →
      buildBookingUpdate u =
        .error (.DatabaseError ("Update Failed: invalid owner ID: " ++ oidErrMsg e)) ∧
      buildBookingUpdate u ≠ .error .InvalidId ∧
      ∀ m, buildBookingUpdate u ≠ .error (.ParseError m)) ∧
    (∀ u : DogUpdateRequest, u.owner = some s →
      buildDogUpdate u =
        .error (.DatabaseError ("Update Failed: invalid owner ID: " ++ oidErrMsg e)) ∧
      buildDogUpdate u ≠ .error .InvalidId ∧
      ∀ m, buildDogUpdate u ≠ .error (.ParseError m)) := by
  constructor
  · intro u ho
    have hb := buildBookingUpdate_owner_err u s e ho hp
    exact ⟨hb, by rw [hb]; simp, fun m => by rw [hb]; simp⟩
  · intro u ho
    have hb := buildDogUpdate_owner_err u s e ho hp
    exact ⟨hb, by rw [hb]; simp, fun m => by rw [hb]; simp⟩

/-- Witness for C9 at the undecodable owner string "xyz". -/
theorem claim_C9_witness :
    buildBookingUpdate
      { owner := some "xyz", start_time := none, duration_minutes := none,
        cancelled := none }
      = .error (.DatabaseError
          ("Update Failed: invalid owner ID: " ++ oidErrMsg (.invalidHexStringLength 3))) ∧
    buildDogUpdate { owner := some "xyz", name := some "Rex", age := none, breed := none }
      = .error (.DatabaseError
          ("Update Failed: invalid owner ID: " ++ oidErrMsg (.invalidHexStringLength 3))) := by
  have h := claim_C9 "xyz" (.invalidHexStringLength 3) rfl
  exact ⟨(h.1 _ rfl).1, (h.2 _ rfl).1⟩

/-- C10: for every resource's update operation, every validation
failure — an undecodable path id (`InvalidId`), a field-selector
failure (any `ParseError`), or a present-but-undecodable owner
reference — leaves the store untouched: the operation issues no store
operation at all on those outcomes. -/
theorem claim_C10 :
    (∀ (env : DbEnv Owner) s u,
      ((updateOwner env s u).1 = .error .InvalidId → (updateOwner env s u).2 = []) ∧
      (∀ m, (updateOwner env s u).1 = .error (.ParseError m) →
        (updateOwner env s u).2 = [])) ∧
    (∀ (env : DbEnv Sitter) s u,
      ((updateSitter env s u).1 = .error .InvalidId → (updateSitter env s u).2 = []) ∧
      (∀ m, (updateSitter env s u).1 = .error (.ParseError m) →
        (updateSitter env s u).2 = [])) ∧
    (∀ (env : DbEnv Dog) s u,
      ((updateDog env s u).1 = .error .InvalidId → (updateDog env s u).2 = []) ∧
      (∀ m, (updateDog env s u).1 = .error (.ParseError m) →
        (updateDog env s u).2 = []) ∧
      (∀ s' e, u.owner = some s' → ObjectId.parse s' = .error e →
        (updateDog env s u).2 = [])) ∧
    (∀ (env : DbEnv Booking) s u,
      ((updateBooking env s u).1 = .error .InvalidId → (updateBooking env s u).2 = []) ∧
      (∀ m, (updateBooking env s u).1 = .error (.ParseError m) →
        (updateBooking env s u).2 = []) ∧
      (∀ s' e, u.owner = some s' → ObjectId.parse s' = .error e →
        (updateBooking env s u).2 = [])) := by
  have gen : ∀ (α : Type) (pr : Except OidError ObjectId)
      (bld : Except AppError BDoc) (out : Except String UpdateResult) (pre : String),
      let r := (match pr with
        | .error _ => ((.error .InvalidId : Except AppError String), ([] : List DbOp))
        | .ok oid =>
          match bld with
          | .error e => (.error e, [])
          | .ok _ =>
            match out with
            | .ok _ => (.ok oid.toHex, [.updateOne])
            | .error e => (.error (.DatabaseError (pre ++ e)), [.updateOne]))
      (r.1 = .error .InvalidId → r.2 = []) ∧
      (∀ m, r.1 = .error (.ParseError m) → r.2 = []) ∧
      (∀ e, bld = .error e → r.2 = []) := by
    intro α pr bld out pre
    rcases pr with e | oid
    · exact ⟨fun _ => rfl, fun _ _ => rfl, fun _ _ => rfl⟩
    · rcases hb : bld with e | fields
      · exact ⟨fun _ => rfl, fun _ _ => rfl, fun _ _ => rfl⟩
      · rcases out with e | res
        · refine ⟨fun hh => ?_, fun m hh => ?_, fun e2 hh => ?_⟩
          · simp at hh
          · simp at hh
          · simp at hh
        · refine ⟨fun hh => ?_, fun m hh => ?_, fun e2 hh => ?_⟩
          · simp at hh
          · simp at hh
          · simp at hh
  refine ⟨fun env s u => ?_, fun env s u => ?_, fun env s u => ?_, fun env s u => ?_⟩
  · have h := gen Owner (ObjectId.parse s) (buildOwnerUpdate u) env.updateOutcome
      "Failed to Update Owner: "
    exact ⟨h.1, h.2.1⟩
  · have h := gen Sitter (ObjectId.parse s) (buildSitterUpdate u) env.updateOutcome
      "Failed to Update Sitter: "
    exact ⟨h.1, h.2.1⟩
  · have h := gen Dog (ObjectId.parse s) (buildDogUpdate u) env.updateOutcome
      "Failed to Update Dog: "
    exact ⟨h.1, h.2.1, fun s' e ho hp =>
      h.2.2 _ (buildDogUpdate_owner_err u s' e ho hp)⟩
  · have h := gen Booking (ObjectId.parse s) (buildBookingUpdate u) env.updateOutcome
      "Failed to Update Booking: "
    exact ⟨h.1, h.2.1, fun s' e ho hp =>
      h.2.2 _ (buildBookingUpdate_owner_err u s' e ho hp)⟩

/-- Witness for C10: a malformed path id, an empty field set and an
invalid owner reference each leave the operation trace empty. -/
theorem claim_C10_witness :
    (updateOwner (sampleEnv Owner) "bad-id"
      { name := some "J", email := none, phone := none, address := none }).2 = [] ∧
    (updateBooking (sampleEnv Booking) "aaaaaaaaaaaaaaaaaaaaaaaa"
      { owner := some "xyz", start_time := none, duration_minutes := none,
        cancelled := none }).2 = [] := by
  constructor
  · exact (claim_C10.1 (sampleEnv Owner) "bad-id" _).1 rfl
  · exact (claim_C10.2.2.2 (sampleEnv Booking) "aaaaaaaaaaaaaaaaaaaaaaaa" _).2.2
      "xyz" (.invalidHexStringLength 3) rfl rfl

/-- C8 counterexample: the create-path conversion applies one uniform
error format with no missing-date branch — a date-less malformed
string ("12:00:00Z") and an unrelated malformed string ("garbage")
produce the very same error — and on the update path the date-less
string is reported by the generic message, not by
"Start time must include a date" (no chrono message contains
"expected date"). -/
theorem claim_C8_counterexample :
    Booking.tryFrom (List.replicate 12 0)
        { owner := "aaaaaaaaaaaaaaaaaaaaaaaa", start_time := "12:00:00Z",
          duration_minutes := 30 }
      = .ret (.error "Failed to parse start time: input contains invalid characters ") ∧
    Booking.tryFrom (List.replicate 12 0)
        { owner := "aaaaaaaaaaaaaaaaaaaaaaaa", start_time := "garbage",
          duration_minutes := 30 }
      = .ret (.error "Failed to parse start time: input contains invalid characters ") ∧
    buildBookingUpdate
      { owner := none, start_time := some "12:00:00Z", duration_minutes := none,
        cancelled := none }
      = .error (.ParseError "Failed to parse start time: input contains invalid characters") ∧
    (AppError.ParseError "Failed to parse start time: input contains invalid characters"
      ≠ .ParseError "Start time must include a date") := by
  exact ⟨rfl, rfl, rfl, by decide⟩

/-- C8 (amended): for every malformed `start_time`, the Booking create
conversion fails with the uniform boxed error
"Failed to parse start time: (message) " and (for an update supplying
no owner) the field selector fails with the corresponding
`ParseError`; the update path's missing-date branch tests whether the
underlying chrono message contains "expected date", which no chrono
parse-error message does, so neither path actually distinguishes the
missing-date case. -/
theorem claim_C8 (st : String) (e : ChronoError) (hp : parseRfc3339 st = .error e) :
    (∀ (fid : ObjectId) (r : BookingRequest), r.start_time = st →
      Booking.tryFrom fid r = .ret (.error ("Failed to parse start time: "
        ++ e.msg ++ " "))) ∧
    (∀ u : BookingUpdateRequest, u.owner = none → u.start_time = some st →
      buildBookingUpdate u =
        .error (.ParseError ("Failed to parse start time: " ++ e.msg))) ∧
    hasSub e.msg "expected date" = false := by
  refine ⟨fun fid r hr => ?_, fun u ho hst => ?_, noExpectedDate e⟩
  · simp [Booking.tryFrom, hr, hp]
  · exact buildBookingUpdate_time_err u st e ho hst hp

/-- Witness for C8 at the date-less malformed string "12:00:00Z". -/
theorem claim_C8_witness :
    parseRfc3339 "12:00:00Z" = .error .invalid ∧
    Booking.tryFrom (List.replicate 12 9)
        { owner := "aaaaaaaaaaaaaaaaaaaaaaaa", start_time := "12:00:00Z",
          duration_minutes := 45 }
      = .ret (.error ("Failed to parse start time: "
          ++ ChronoError.msg .invalid ++ " ")) ∧
    buildBookingUpdate
      { owner := none, start_time := some "12:00:00Z", duration_minutes := none,
        cancelled := none }
      = .error (.ParseError ("Failed to parse start time: " ++ ChronoError.msg .invalid)) := by
  have h := claim_C8 "12:00:00Z" .invalid rfl
  exact ⟨rfl, h.1 _ _ rfl, h.2.1 _ rfl rfl⟩

/-- C2 counterexample: three concrete create requests break the
literal round-trip.  (1) An uppercase-hex owner is echoed back
lowercased, so the owner response field differs from the request
field.  (2) A start time with sub-millisecond precision is truncated
by the bson `DateTime`, so the response start-time string re-parses to
a different instant.  (3) A valid request whose UTC instant lands in
year 10000 renders with an expanded year that `parse_from_rfc3339`
cannot re-parse at all. -/
theorem claim_C2_counterexample :
    Booking.tryFrom (List.replicate 12 0)
        { owner := "AAAAAAAAAAAAAAAAAAAAAAAA",
          start_time := "2025-04-28T12:00:00.0005Z", duration_minutes := 30 }
      = .ret (.ok { _id := List.replicate 12 0, owner := List.replicate 12 170,
                    start_time := 1745841600000, duration_minutes := 30,
                    cancelled := false }) ∧
    (Booking.toResponse
        { _id := List.replicate 12 0, owner := List.replicate 12 170,
          start_time := 1745841600000, duration_minutes := 30,
          cancelled := false }).owner
      = "aaaaaaaaaaaaaaaaaaaaaaaa" ∧
    ("aaaaaaaaaaaaaaaaaaaaaaaa" : String) ≠ "AAAAAAAAAAAAAAAAAAAAAAAA" ∧
    parseRfc3339 "2025-04-28T12:00:00.0005Z" = .ok 1745841600000500000 ∧
    (Booking.toResponse
        { _id := List.replicate 12 0, owner := List.replicate 12 170,
          start_time := 1745841600000, duration_minutes := 30,
          cancelled := false }).start_time
      = "2025-04-28T12:00:00+00:00" ∧
    parseRfc3339 "2025-04-28T12:00:00+00:00" = .ok 1745841600000000000 ∧
    ((1745841600000000000 : Int) ≠ 1745841600000500000) ∧
    parseRfc3339 "9999-12-31T23:00:00-02:00" = .ok 253402304400000000000 ∧
    msTrunc 253402304400000000000 = 253402304400000 ∧
    toRfc3339OfMillis 253402304400000 = "+10000-01-01T01:00:00+00:00" ∧
    parseRfc3339 "+10000-01-01T01:00:00+00:00" = .error .invalid := by
  exact ⟨rfl, rfl, by decide, rfl, rfl, rfl, by decide, rfl, rfl, rfl, rfl⟩

/-- C2 (amended): for every resource, a valid create request converts
to an entity and then to a response in which every client field is
echoed verbatim, the generated id is rendered as a well-formed
24-character lowercase-hex string, and, for Booking, `cancelled` is
`false`; the owner reference of Dog and Booking is echoed as the
lowercase-hex rendering of the decoded id (case-normalized, not
verbatim), and the Booking response start time is the RFC3339
rendering of the stored instant — the request instant truncated to
the bson millisecond precision — which re-parses to exactly that
truncated instant whenever it lies in the four-digit-year range. -/
theorem claim_C2 (fid : ObjectId) (hWF : fid.WF) :
    (∀ r : OwnerRequest,
      Owner.tryFrom fid r
        = .ok { _id := fid, name := r.name, email := r.email,
                phone := r.phone, address := r.address } ∧
      Owner.toResponse
          { _id := fid, name := r.name, email := r.email,
            phone := r.phone, address := r.address }
        = { _id := fid.toHex, name := r.name, email := r.email, phone := r.phone,
            address := r.address } ∧
      wellFormedHex fid.toHex) ∧
    (∀ r : SitterRequest,
      Sitter.tryFrom fid r
        = .ok { _id := fid, firstname := r.firstname,
                lastname := r.lastname, gender := r.gender, email := r.email,
                phone := r.phone, address := r.address } ∧
      Sitter.toResponse
          { _id := fid, firstname := r.firstname,
            lastname := r.lastname, gender := r.gender, email := r.email,
            phone := r.phone, address := r.address }
        = { _id := fid.toHex, firstname := r.firstname, lastname := r.lastname,
            gender := r.gender, email := r.email, phone := r.phone,
            address := r.address } ∧
      wellFormedHex fid.toHex) ∧
    (∀ (r : DogRequest) (ob : ObjectId), ObjectId.parse r.owner = .ok ob →
      Dog.tryFrom fid r
        = .ret (.ok { _id := fid, owner := ob, name := r.name,
                      age := r.age, breed := r.breed }) ∧
      Dog.toResponse
          { _id := fid, owner := ob, name := r.name, age := r.age,
            breed := r.breed }
        = { _id := fid.toHex, owner := ob.toHex, name := r.name, age := r.age,
            breed := r.breed } ∧
      wellFormedHex ob.toHex) ∧
    (∀ (r : BookingRequest) (inst : Int) (ob : ObjectId),
      parseRfc3339 r.start_time = .ok inst → ObjectId.parse r.owner = .ok ob →
      Booking.tryFrom fid r
        = .ret (.ok { _id := fid, owner := ob,
                      start_time := msTrunc inst,
                      duration_minutes := r.duration_minutes,
                      cancelled := false }) ∧
      Booking.toResponse
          { _id := fid, owner := ob, start_time := msTrunc inst,
            duration_minutes := r.duration_minutes, cancelled := false }
        = { _id := fid.toHex, owner := ob.toHex,
            start_time := toRfc3339OfMillis (msTrunc inst),
            duration_minutes := r.duration_minutes, cancelled := false } ∧
      wellFormedHex ob.toHex ∧
      (-62167219200000 ≤ msTrunc inst → msTrunc inst ≤ 253402300799999 →
        parseRfc3339 (toRfc3339OfMillis (msTrunc inst)) = .ok (msTrunc inst * 1000000))) := by
  refine ⟨fun r => ⟨rfl, rfl, toHex_wf fid hWF⟩,
    fun r => ⟨rfl, rfl, toHex_wf fid hWF⟩,
    fun r ob hob => ⟨?_, rfl, toHex_wf ob (parse_wf _ _ hob)⟩,
    fun r inst ob hst hob => ⟨?_, rfl, toHex_wf ob (parse_wf _ _ hob),
      fun hb1 hb2 => parseRfc3339_toRfc3339 _ hb1 hb2⟩⟩
  · simp [Dog.tryFrom, hob]
  · simp [Booking.tryFrom, hst, hob]

/-- Witness for C2: a concrete Owner request and a concrete Booking
request with a millisecond-precision start time. -/
theorem claim_C2_witness :
    ObjectId.WF (List.replicate 12 0) ∧
    Owner.tryFrom (List.replicate 12 0)
      { name := "Jane Doe", email := "jane@example.com", phone := "5551234567",
        address := "1 Main St" }
      = .ok { _id := List.replicate 12 0, name := "Jane Doe",
              email := "jane@example.com", phone := "5551234567",
              address := "1 Main St" } ∧
    wellFormedHex (ObjectId.toHex (List.replicate 12 0)) ∧
    parseRfc3339 "2025-04-28T12:00:00.250Z" = .ok 1745841600250000000 ∧
    parseRfc3339 (toRfc3339OfMillis (msTrunc 1745841600250000000))
      = .ok (msTrunc 1745841600250000000 * 1000000) := by
  have h := claim_C2 (List.replicate 12 0) (by decide)
  have hJ := h.1
    { name := "Jane Doe", email := "jane@example.com",
      phone := "5551234567", address := "1 Main St" }
  refine ⟨by decide, hJ.1, hJ.2.2, rfl, ?_⟩
  exact (h.2.2.2
    { owner := "aaaaaaaaaaaaaaaaaaaaaaaa",
      start_time := "2025-04-28T12:00:00.250Z", duration_minutes := 30 }
    1745841600250000000 (List.replicate 12 170) rfl rfl).2.2.2
    (by decide) (by decide)
